import Mathlib

/-!
Shallow embedding of pyftdi's serial-port adapter
(src/pyftdi/serialext/protocol_ftdi.py, class FtdiSerial).

The adapter forwards calls to an external FTDI device driver.  The driver is
not part of the repository, so it is modelled as oracles:

* for the receive path (FtdiSerial.read), an RxDevice giving the infinite
  sequence of bytes the device will deliver and, for each poll, how many bytes
  have arrived so far; read_data(n) then returns the next min(n, available)
  undelivered bytes;
* for configuration (open / _reconfigure_port), a DevConfig recording, for
  each driver call, whether it raises IOError (with which message), whether
  set_dynamic_latency raises AttributeError, and the string returned by
  get_error_string();
* for wall-clock time, a function from now()-call index to a tick count
  (the i-th now() call of a read; index 0 is the `start = now()` call).

Python exceptions are the constructors of PyError.  Device side effects are
recorded as a DevCall trace.  The unbounded `while True` loop of read is
embedded with explicit fuel: `none` means the fuel ran out before the loop
broke, `some data` means the loop returned `bytes(data)`.
-/

namespace PyFtdi

/-- A byte value (the embedding never needs the 0..255 bound). -/
abbrev Byte := Nat

/-- Exception classes appearing in protocol_ftdi.py: `SerialException` is the
only class the adapter itself raises; `IOError`, `UsbToolsError` and
`AttributeError` are raised by the driver and caught by the adapter. -/
inductive PyError where
  | serialException (msg : String)
  | ioError (msg : String)
  | usbToolsError (msg : String)
  | attributeError
  deriving DecidableEq, Repr

/-- The exception class of an error, as a tag: two errors are of the same
kind (same Python exception class) iff their tags agree. -/
def PyError.kindTag : PyError → Nat
  | .serialException _ => 0
  | .ioError _ => 1
  | .usbToolsError _ => 2
  | .attributeError => 3

/-- One call forwarded to the device handle (`self.udev`), with its
arguments.  Byte size, stop bits and parity are opaque numeric codes for the
corresponding pyserial constants. -/
inductive DevCall where
  | set_baudrate (baud : Nat)
  | set_line_property (bytesize stopbits parity : Nat)
  | set_flowctrl (mode : String)
  | set_dynamic_latency (lat : Nat) (lthr : Nat) (hthr : Nat)
  | close_dev
  deriving DecidableEq, Repr

/-- Recognises a set_flowctrl call in a trace. -/
def DevCall.isFlowctrl : DevCall → Bool
  | .set_flowctrl _ => true
  | _ => false

/-- The adapter state: the pyserial SerialBase attributes that
protocol_ftdi.py reads or writes.  `udev` is the stored device handle
(`None` or a handle, identified by a number); `timeout` is `self._timeout`
in clock ticks (`none` = no timeout configured). -/
structure FtdiSerial where
  port : Option String
  is_open : Bool
  udev : Option Nat
  baudrate : Nat
  bytesize : Nat
  stopbits : Nat
  parity : Nat
  timeout : Option Nat
  rtscts : Bool
  xonxoff : Bool
  deriving DecidableEq, Repr

/-- Behaviour of the driver's configuration calls during one
`_reconfigure_port`: `some msg` means the call raises `IOError(msg)`;
`dynlat_attr_missing` means `set_dynamic_latency` raises `AttributeError`
(backend does not support the feature); `error_string` is what
`get_error_string()` returns in the except handler. -/
structure DevConfig where
  baudrate_err : Option String
  lineprop_err : Option String
  flowctrl_err : Option String
  dynlat_attr_missing : Bool
  dynlat_err : Option String
  error_string : String
  deriving DecidableEq, Repr

/-- `FtdiSerial._reconfigure_port`: pushes baud rate, line properties and
flow control to the device, then best-effort `set_dynamic_latency(12, 200,
50)` whose `AttributeError` is swallowed; any `IOError e` is re-raised as
`SerialException("%s (%s)" % (str(e), self.udev.get_error_string()))`.
Returns the trace of driver calls that completed and the raised exception,
if any. -/
def _reconfigure_port (s : FtdiSerial) (dev : DevConfig) :
    List DevCall × Option PyError :=
  match dev.baudrate_err with
  | some e => ([], some (.serialException (e ++ " (" ++ dev.error_string ++ ")")))
  | none =>
    let t1 := [DevCall.set_baudrate s.baudrate]
    match dev.lineprop_err with
    | some e => (t1, some (.serialException (e ++ " (" ++ dev.error_string ++ ")")))
    | none =>
      let t2 := t1 ++ [DevCall.set_line_property s.bytesize s.stopbits s.parity]
      let mode := if s.rtscts then "hw" else if s.xonxoff then "sw" else ""
      match dev.flowctrl_err with
      | some e => (t2, some (.serialException (e ++ " (" ++ dev.error_string ++ ")")))
      | none =>
        let t3 := t2 ++ [DevCall.set_flowctrl mode]
        if dev.dynlat_attr_missing then (t3, none)
        else
          match dev.dynlat_err with
          | some e =>
              (t3, some (.serialException (e ++ " (" ++ dev.error_string ++ ")")))
          | none => (t3 ++ [DevCall.set_dynamic_latency 12 200 50], none)

/-- `FtdiSerial.open`: raises if no port is configured; resolves the port
selector through `Ftdi.create_from_url` (modelled by the `resolve` oracle:
`.error ex` when it raises `UsbToolsError`/`IOError` with message `ex`),
wrapping resolution failures in
`SerialException('Unable to open USB port %s: %s')`; on success stores the
handle, marks the port open, and runs `_reconfigure_port`.  Returns the
final adapter state, the driver-call trace, and the raised exception, if
any. -/
def openPort (s : FtdiSerial) (resolve : Except String Nat) (dev : DevConfig) :
    FtdiSerial × List DevCall × Option PyError :=
  match s.port with
  | none => (s, [], some (.serialException "Port must be configured before use."))
  | some portstr =>
    match resolve with
    | .error ex =>
        (s, [], some (.serialException
          ("Unable to open USB port " ++ portstr ++ ": " ++ ex)))
    | .ok device =>
        let s1 := { s with udev := some device, is_open := true }
        let r := _reconfigure_port s1 dev
        (s1, r.1, r.2)

/-- `FtdiSerial.close`: sets `is_open` to `False`; if the handle is present
(truthy), calls `udev.close()` and clears the reference. -/
def close (s : FtdiSerial) : FtdiSerial × List DevCall :=
  let s1 := { s with is_open := false }
  match s1.udev with
  | some _ => ({ s1 with udev := none }, [DevCall.close_dev])
  | none => (s1, [])

/-- `FtdiSerial.in_waiting`: not implemented by the driver, returns 0. -/
def in_waiting (_ : FtdiSerial) : Nat := 0

/-- `FtdiSerial.out_waiting`: returns 0. -/
def out_waiting (_ : FtdiSerial) : Nat := 0

/-- The receive side of the device: `byteAt k` is the k-th byte the device
will ever deliver, `cumAvail i` is how many bytes of that sequence have
arrived at the device by the i-th poll. -/
structure RxDevice where
  byteAt : Nat → Byte
  cumAvail : Nat → Nat

/-- `udev.read_data(n)` at the i-th poll, after `pos` bytes have already
been consumed: returns the next `min n (cumAvail i - pos)` undelivered
bytes (at most `n` bytes, and at most what has arrived). -/
def readData (dev : RxDevice) (i pos n : Nat) : List Byte :=
  (List.range' pos (min n (dev.cumAvail i - pos))).map dev.byteAt

/-- The `while True` loop of `FtdiSerial.read`, with explicit fuel (one unit
per iteration).  `i` is the poll index, `pos` the bytes consumed so far,
`data` the accumulator, `size` the remaining request.  Each iteration:
`buf = self.udev.read_data(size)`, extend `data`, decrement `size`; break
when `size <= 0`; with a timeout configured, also break when `buf` is
nonempty or when `now() - start > timeout` (the `start = now()` call is
`time 0`, the in-loop `now()` of iteration `i` is `time (i+1)`); otherwise
`sleep(0.01)` (no effect on the value model) and loop.  `size` is kept as a
Nat: Python's `size` only goes negative when a chunk overshoots the
request, which `read_data` never does, and the `size <= 0` break then
coincides with `size = 0`. -/
def readLoop (dev : RxDevice) (timeout : Option Nat) (time : Nat → Nat) :
    Nat → Nat → Nat → List Byte → Nat → Option (List Byte)
  | 0, _, _, _, _ => none
  | fuel + 1, i, pos, data, size =>
    let buf := readData dev i pos size
    let data1 := data ++ buf
    let pos1 := pos + buf.length
    let size1 := size - buf.length
    if size1 = 0 then some data1
    else
      match timeout with
      | some t =>
        if buf.length ≠ 0 then some data1
        else if time (i + 1) - time 0 > t then some data1
        else readLoop dev timeout time fuel (i + 1) pos1 data1 size1
      | none => readLoop dev timeout time fuel (i + 1) pos1 data1 size1

/-- `FtdiSerial.read(size)`: runs the polling loop from an empty
accumulator. -/
def read (s : FtdiSerial) (dev : RxDevice) (time : Nat → Nat) (fuel size : Nat) :
    Option (List Byte) :=
  readLoop dev s.timeout time fuel 0 0 [] size

/-- A sample adapter state for concrete witnesses. -/
def samplePort : FtdiSerial :=
  { port := some "ftdi://ftdi:2232h/1", is_open := false, udev := none,
    baudrate := 9600, bytesize := 8, stopbits := 1, parity := 0,
    timeout := none, rtscts := false, xonxoff := false }

/-- A sample device configuration oracle on which every call succeeds. -/
def sampleDevOk : DevConfig :=
  { baudrate_err := none, lineprop_err := none, flowctrl_err := none,
    dynlat_attr_missing := false, dynlat_err := none, error_string := "OK" }

/-- A sample device configuration oracle on which `set_baudrate` raises
`IOError("usb bulk write failed")`. -/
def sampleDevBaudFail : DevConfig :=
  { sampleDevOk with baudrate_err := some "usb bulk write failed" }

/-- Every exception `_reconfigure_port` raises is a `SerialException`. -/
lemma _reconfigure_port_err_serial (s : FtdiSerial) (dev : DevConfig) (e : PyError)
    (he : (_reconfigure_port s dev).2 = some e) : ∃ m, e = PyError.serialException m := by
  unfold _reconfigure_port at he
  cases hb : dev.baudrate_err <;> rw [hb] at he
  case some eb => exact ⟨_, (Option.some_injective _ he).symm⟩
  cases hl : dev.lineprop_err <;> rw [hl] at he
  case some el => exact ⟨_, (Option.some_injective _ he).symm⟩
  cases hf : dev.flowctrl_err <;> rw [hf] at he
  case some ef => exact ⟨_, (Option.some_injective _ he).symm⟩
  cases hd : dev.dynlat_attr_missing <;> rw [hd] at he
  · cases hx : dev.dynlat_err <;> rw [hx] at he
    · simp at he
    · exact ⟨_, (Option.some_injective _ he).symm⟩
  · simp at he

/-- Claim C4: `close()` is idempotent — a second `close()` on an
already-closed port leaves the state unchanged and makes no driver call
(and, being total, never raises); the first `close()` marks the port not
open, emits `udev.close()` exactly when a handle was stored, and clears the
handle reference. -/
theorem C4_close_idempotent (s : FtdiSerial) :
    close (close s).1 = ((close s).1, []) ∧
    ((close s).1).is_open = false ∧
    ((close s).1).udev = none ∧
    (close s).2 = (if (s.udev).isSome then [DevCall.close_dev] else []) := by
  cases h : s.udev <;> simp [close, h]

/-- Claim C7: `in_waiting` and `out_waiting` report 0 in every adapter
state. -/
theorem C7_waiting_always_zero (s : FtdiSerial) :
    in_waiting s = 0 ∧ out_waiting s = 0 :=
  ⟨rfl, rfl⟩

/-- Claim C6: during a reconfiguration whose pushes succeed, exactly one
`set_flowctrl` call is applied, and its mode follows the priority order:
hardware when `rtscts` is set (even if `xonxoff` is also set), else
software when `xonxoff` is set, else no flow control. -/
theorem C6_flowctrl_priority (s : FtdiSerial) (dev : DevConfig)
    (hb : dev.baudrate_err = none) (hl : dev.lineprop_err = none)
    (hf : dev.flowctrl_err = none) :
    ((_reconfigure_port s dev).1.filter DevCall.isFlowctrl).length = 1 ∧
    (s.rtscts = true →
      (_reconfigure_port s dev).1.filter DevCall.isFlowctrl =
        [DevCall.set_flowctrl "hw"]) ∧
    (s.rtscts = false → s.xonxoff = true →
      (_reconfigure_port s dev).1.filter DevCall.isFlowctrl =
        [DevCall.set_flowctrl "sw"]) ∧
    (s.rtscts = false → s.xonxoff = false →
      (_reconfigure_port s dev).1.filter DevCall.isFlowctrl =
        [DevCall.set_flowctrl ""]) := by
  unfold _reconfigure_port
  rw [hb, hl, hf]
  cases hr : s.rtscts <;> cases hx : s.xonxoff <;>
    cases hd : dev.dynlat_attr_missing <;> cases hde : dev.dynlat_err <;>
      simp [DevCall.isFlowctrl, List.filter]

/-- Claim C5: a successful `open()` stores the resolved handle, marks the
port open, raises nothing, and pushes baud rate, line properties (byte
size, stop bits, parity) and the flow-control mode to the device, in that
order, before returning. -/
theorem C5_open_pushes_config (s : FtdiSerial) (p : String) (h : Nat)
    (dev : DevConfig) (hport : s.port = some p)
    (hb : dev.baudrate_err = none) (hl : dev.lineprop_err = none)
    (hf : dev.flowctrl_err = none)
    (hd : dev.dynlat_attr_missing = true ∨ dev.dynlat_err = none) :
    (openPort s (Except.ok h) dev).1.udev = some h ∧
    (openPort s (Except.ok h) dev).1.is_open = true ∧
    (openPort s (Except.ok h) dev).2.2 = none ∧
    (openPort s (Except.ok h) dev).2.1.take 3 =
      [DevCall.set_baudrate s.baudrate,
       DevCall.set_line_property s.bytesize s.stopbits s.parity,
       DevCall.set_flowctrl (if s.rtscts then "hw" else if s.xonxoff then "sw" else "")] := by
  cases hdm : dev.dynlat_attr_missing
  · rcases hd with hd | hd
    · rw [hdm] at hd; cases hd
    · simp [openPort, _reconfigure_port, hport, hb, hl, hf, hdm, hd]
  · simp [openPort, _reconfigure_port, hport, hb, hl, hf, hdm]

/-- Claim C5 witness: opening the sample port over an all-successful driver
stores handle 3, opens the port, and pushes baud 9600, line properties
(8, 1, 0) and empty flow control, in that order. -/
theorem C5_witness :
    (openPort samplePort (Except.ok 3) sampleDevOk).1.udev = some 3 ∧
    (openPort samplePort (Except.ok 3) sampleDevOk).1.is_open = true ∧
    (openPort samplePort (Except.ok 3) sampleDevOk).2.2 = none ∧
    (openPort samplePort (Except.ok 3) sampleDevOk).2.1.take 3 =
      [DevCall.set_baudrate 9600, DevCall.set_line_property 8 1 0,
       DevCall.set_flowctrl ""] :=
  C5_open_pushes_config samplePort "ftdi://ftdi:2232h/1" 3 sampleDevOk
    rfl rfl rfl rfl (Or.inr rfl)

/-- Claim C6 witness: with both flow-control flags set and all pushes
succeeding, exactly one `set_flowctrl` is applied and it is the hardware
mode. -/
theorem C6_witness :
    ((_reconfigure_port { samplePort with rtscts := true, xonxoff := true }
        sampleDevOk).1.filter DevCall.isFlowctrl).length = 1 ∧
    (_reconfigure_port { samplePort with rtscts := true, xonxoff := true }
        sampleDevOk).1.filter DevCall.isFlowctrl = [DevCall.set_flowctrl "hw"] :=
  have h := C6_flowctrl_priority
    { samplePort with rtscts := true, xonxoff := true } sampleDevOk rfl rfl rfl
  ⟨h.1, h.2.1 rfl⟩

/-- Claim C9: when `set_dynamic_latency` raises `AttributeError` (backend
lacks the capability), `open()` still succeeds: no exception, the port is
open, and the baud-rate, line-property and flow-control pushes all remain
applied. -/
theorem C9_dynlat_absent_swallowed (s : FtdiSerial) (p : String) (h : Nat)
    (dev : DevConfig) (hport : s.port = some p)
    (hb : dev.baudrate_err = none) (hl : dev.lineprop_err = none)
    (hf : dev.flowctrl_err = none) (hdl : dev.dynlat_attr_missing = true) :
    (openPort s (Except.ok h) dev).2.2 = none ∧
    (openPort s (Except.ok h) dev).1.is_open = true ∧
    (openPort s (Except.ok h) dev).2.1 =
      [DevCall.set_baudrate s.baudrate,
       DevCall.set_line_property s.bytesize s.stopbits s.parity,
       DevCall.set_flowctrl (if s.rtscts then "hw" else if s.xonxoff then "sw" else "")] := by
  simp [openPort, _reconfigure_port, hport, hb, hl, hf, hdl]

/-- Claim C9 witness: with the adaptive-latency capability absent, opening
the sample port succeeds and the three configuration pushes are applied. -/
theorem C9_witness :
    (openPort samplePort (Except.ok 5)
        { sampleDevOk with dynlat_attr_missing := true }).2.2 = none ∧
    (openPort samplePort (Except.ok 5)
        { sampleDevOk with dynlat_attr_missing := true }).1.is_open = true ∧
    (openPort samplePort (Except.ok 5)
        { sampleDevOk with dynlat_attr_missing := true }).2.1 =
      [DevCall.set_baudrate 9600, DevCall.set_line_property 8 1 0,
       DevCall.set_flowctrl ""] :=
  C9_dynlat_absent_swallowed samplePort "ftdi://ftdi:2232h/1" 5
    { sampleDevOk with dynlat_attr_missing := true } rfl rfl rfl rfl rfl

/-- Claim C10: `open()` is not atomic — when selector resolution succeeds
but reconfiguration raises, the exception propagates while the returned
state still has the port marked open and the handle stored. -/
theorem C10_open_not_atomic (s : FtdiSerial) (p : String) (h : Nat)
    (dev : DevConfig) (e : PyError) (hport : s.port = some p)
    (hfail : (_reconfigure_port { s with udev := some h, is_open := true } dev).2
      = some e) :
    (openPort s (Except.ok h) dev).2.2 = some e ∧
    (openPort s (Except.ok h) dev).1.is_open = true ∧
    (openPort s (Except.ok h) dev).1.udev = some h := by
  rw [hport] at hfail
  simp [openPort, hport, hfail]

/-- Claim C10 witness: with a failing `set_baudrate`, opening the sample
port raises the wrapped exception yet leaves the port open with handle 7
stored. -/
theorem C10_witness :
    (openPort samplePort (Except.ok 7) sampleDevBaudFail).2.2 =
      some (PyError.serialException "usb bulk write failed (OK)") ∧
    (openPort samplePort (Except.ok 7) sampleDevBaudFail).1.is_open = true ∧
    (openPort samplePort (Except.ok 7) sampleDevBaudFail).1.udev = some 7 :=
  C10_open_not_atomic samplePort "ftdi://ftdi:2232h/1" 7 sampleDevBaudFail
    (PyError.serialException "usb bulk write failed (OK)") rfl rfl

/-- Claim C8 counterexample: the code raises the same exception kind
(`SerialException`) for an open-time resolution failure and for a runtime
configuration failure — at these concrete inputs both raised errors exist
and carry equal kind tags, so the two failure modes are not distinguishable
error kinds. -/
theorem C8_counterexample :
    ((openPort samplePort (Except.error "device not found") sampleDevOk).2.2).isSome
        = true ∧
    ((openPort samplePort (Except.ok 7) sampleDevBaudFail).2.2).isSome = true ∧
    Option.map PyError.kindTag
        ((openPort samplePort (Except.error "device not found") sampleDevOk).2.2) =
      Option.map PyError.kindTag
        ((openPort samplePort (Except.ok 7) sampleDevBaudFail).2.2) :=
  ⟨rfl, rfl, rfl⟩

/-- Claim C8 (amended): every failure `open()` surfaces — missing port,
resolution failure, or configuration failure — is of the single exception
kind `SerialException`; open-time and runtime failures differ only in
message text, not in error kind. -/
theorem C8_amended_single_error_kind (s : FtdiSerial) (r : Except String Nat)
    (dev : DevConfig) (e : PyError)
    (he : (openPort s r dev).2.2 = some e) :
    ∃ m, e = PyError.serialException m := by
  unfold openPort at he
  cases hp : s.port <;> rw [hp] at he
  · exact ⟨_, (Option.some_injective _ he).symm⟩
  · cases r with
    | error ex => exact ⟨_, (Option.some_injective _ he).symm⟩
    | ok d => exact _reconfigure_port_err_serial _ dev e he

/-- Claim C8 (amended) witness: the open-time failure at the concrete
inputs of the counterexample is a `SerialException`. -/
theorem C8_amended_witness :
    ∃ m, PyError.serialException
        "Unable to open USB port ftdi://ftdi:2232h/1: device not found"
      = PyError.serialException m :=
  C8_amended_single_error_kind samplePort (Except.error "device not found")
    sampleDevOk
    (PyError.serialException
      "Unable to open USB port ftdi://ftdi:2232h/1: device not found") rfl

/-- One unfolding step of the read loop when no timeout is configured. -/
lemma readLoop_succ_none (dev : RxDevice) (time : Nat → Nat)
    (fuel i pos : Nat) (data : List Byte) (size : Nat) :
    readLoop dev none time (fuel + 1) i pos data size =
      if size - (readData dev i pos size).length = 0 then
        some (data ++ readData dev i pos size)
      else
        readLoop dev none time fuel (i + 1)
          (pos + (readData dev i pos size).length)
          (data ++ readData dev i pos size)
          (size - (readData dev i pos size).length) := rfl

/-- One unfolding step of the read loop when a timeout is configured. -/
lemma readLoop_succ_some (dev : RxDevice) (time : Nat → Nat)
    (t fuel i pos : Nat) (data : List Byte) (size : Nat) :
    readLoop dev (some t) time (fuel + 1) i pos data size =
      if size - (readData dev i pos size).length = 0 then
        some (data ++ readData dev i pos size)
      else if (readData dev i pos size).length ≠ 0 then
        some (data ++ readData dev i pos size)
      else if time (i + 1) - time 0 > t then
        some (data ++ readData dev i pos size)
      else
        readLoop dev (some t) time fuel (i + 1)
          (pos + (readData dev i pos size).length)
          (data ++ readData dev i pos size)
          (size - (readData dev i pos size).length) := rfl

/-- Gluing two mapped index ranges. -/
lemma map_range'_append (f : Nat → Byte) (pos m : Nat) :
    (List.range' 0 pos).map f ++ (List.range' pos m).map f
      = (List.range' 0 (pos + m)).map f := by
  rw [← List.map_append]
  congr 1
  simpa [Nat.add_comm m pos] using List.range'_append 0 pos m 1

/-- With no timeout, once `pos + size` bytes have arrived by poll `i + n`,
the loop started at poll `i` with `pos` bytes already consumed returns the
bytes delivered so far extended to exactly `pos + size` delivered bytes,
within `n + 1` iterations. -/
lemma readLoop_no_timeout (dev : RxDevice) (time : Nat → Nat) :
    ∀ (n i pos size : Nat),
      pos + size ≤ dev.cumAvail (i + n) →
      readLoop dev none time (n + 1) i pos
          ((List.range' 0 pos).map dev.byteAt) size =
        some ((List.range' 0 (pos + size)).map dev.byteAt) := by
  intro n
  induction n with
  | zero =>
    intro i pos size hsup
    rw [readLoop_succ_none]
    have hm : min size (dev.cumAvail i - pos) = size := by
      have : pos + size ≤ dev.cumAvail i := by simpa using hsup
      omega
    have hbuf : readData dev i pos size = (List.range' pos size).map dev.byteAt := by
      unfold readData
      rw [hm]
    have h0 : size - (readData dev i pos size).length = 0 := by
      rw [hbuf]
      simp
    rw [if_pos h0, hbuf, map_range'_append]
  | succ n ih =>
    intro i pos size hsup
    rw [readLoop_succ_none]
    have hbuf : readData dev i pos size =
        (List.range' pos (min size (dev.cumAvail i - pos))).map dev.byteAt := rfl
    have hlen : (readData dev i pos size).length = min size (dev.cumAvail i - pos) := by
      rw [hbuf]
      simp
    have hle : min size (dev.cumAvail i - pos) ≤ size := Nat.min_le_left _ _
    by_cases h0 : size - (readData dev i pos size).length = 0
    · rw [if_pos h0]
      have hm : min size (dev.cumAvail i - pos) = size := by omega
      rw [hbuf, hm, map_range'_append]
    · rw [if_neg h0, hlen, hbuf, map_range'_append]
      have h2 : pos + min size (dev.cumAvail i - pos)
          + (size - min size (dev.cumAvail i - pos)) = pos + size := by omega
      have hsup' : pos + min size (dev.cumAvail i - pos)
          + (size - min size (dev.cumAvail i - pos)) ≤ dev.cumAvail (i + 1 + n) := by
        have hidx : i + 1 + n = i + (n + 1) := by omega
        rw [hidx, h2]
        exact hsup
      have hrec := ih (i + 1) (pos + min size (dev.cumAvail i - pos))
        (size - min size (dev.cumAvail i - pos)) hsup'
      rw [hrec, h2]

/-- Claim C1: with no timeout configured, `read(size)` keeps polling and
accumulating chunks; once the device has supplied `size` bytes in total (by
poll `N`, whatever the chunk sizes per poll), it returns exactly the first
`size` delivered bytes — a list of length `size`. -/
theorem C1_read_no_timeout_blocks_until_size (s : FtdiSerial) (dev : RxDevice)
    (time : Nat → Nat) (size N : Nat)
    (hto : s.timeout = none)
    (hsup : size ≤ dev.cumAvail N) :
    read s dev time (N + 1) size = some ((List.range' 0 size).map dev.byteAt) ∧
    ((List.range' 0 size).map dev.byteAt).length = size := by
  constructor
  · unfold read
    rw [hto]
    have h := readLoop_no_timeout dev time N 0 0 size (by simpa using hsup)
    simpa using h
  · simp

/-- A sample receive device delivering one byte per elapsed poll. -/
def sampleRx : RxDevice := { byteAt := fun k => k + 65, cumAvail := fun i => i }

/-- Claim C1 witness: with no timeout and one byte arriving per poll,
`read(3)` with fuel for 4 polls returns exactly the 3 bytes 65, 66, 67. -/
theorem C1_witness :
    ({ samplePort with timeout := none } : FtdiSerial).timeout = none ∧
    3 ≤ sampleRx.cumAvail 3 ∧
    read { samplePort with timeout := none } sampleRx (fun i => i) 4 3 =
      some [65, 66, 67] ∧
    ([65, 66, 67] : List Byte).length = 3 := by
  have h := C1_read_no_timeout_blocks_until_size
    { samplePort with timeout := none } sampleRx (fun i => i) 3 3 rfl (by decide)
  exact ⟨rfl, by decide, h.1.trans rfl, rfl⟩

/-- Claim C2: with a timeout configured, whenever a poll inside the loop
returns a nonempty chunk that still leaves the request unsatisfied, the
loop returns immediately (one iteration, any remaining fuel) with the bytes
accumulated so far extended by that chunk. -/
theorem C2_timeout_returns_first_chunk (s : FtdiSerial) (dev : RxDevice)
    (time : Nat → Nat) (t fuel i pos size : Nat) (data : List Byte)
    (hto : s.timeout = some t)
    (hne : (readData dev i pos size).length ≠ 0)
    (hlt : (readData dev i pos size).length < size) :
    readLoop dev s.timeout time (fuel + 1) i pos data size =
      some (data ++ readData dev i pos size) := by
  rw [hto, readLoop_succ_some]
  have h0 : ¬ size - (readData dev i pos size).length = 0 := by omega
  rw [if_neg h0, if_pos hne]

/-- A sample receive device with two bytes available from the start. -/
def sampleRxTwo : RxDevice := { byteAt := fun k => k, cumAvail := fun _ => 2 }

/-- Claim C2 witness: with a timeout of 100 and 2 of 5 requested bytes
available on the first poll, the loop returns just those 2 bytes. -/
theorem C2_witness :
    (readData sampleRxTwo 0 0 5).length ≠ 0 ∧
    (readData sampleRxTwo 0 0 5).length < 5 ∧
    readLoop sampleRxTwo ({ samplePort with timeout := some 100 } : FtdiSerial).timeout
        (fun i => i) 3 0 0 [] 5 = some ([] ++ readData sampleRxTwo 0 0 5) := by
  refine ⟨by decide, by decide, ?_⟩
  exact C2_timeout_returns_first_chunk { samplePort with timeout := some 100 }
    sampleRxTwo (fun i => i) 100 2 0 0 5 [] rfl (by decide) (by decide)

/-- With a timeout configured and a device on which nothing ever arrives,
the loop started at poll `i` returns its accumulator unchanged once some
in-loop `now()` call up to index `i + k + 1` exceeds the deadline, within
`k + 1` iterations. -/
lemma readLoop_timeout_all_empty (dev : RxDevice) (time : Nat → Nat) (t : Nat)
    (hdev : ∀ j, dev.cumAvail j = 0) :
    ∀ (k i pos size : Nat) (data : List Byte),
      time (i + k + 1) - time 0 > t →
      readLoop dev (some t) time (k + 1) i pos data size = some data := by
  intro k
  induction k with
  | zero =>
    intro i pos size data htime
    rw [readLoop_succ_some]
    have hbuf : readData dev i pos size = [] := by
      unfold readData
      rw [hdev i]
      simp
    have ht : time (i + 1) - time 0 > t := by simpa using htime
    simp [hbuf, ht]
  | succ k ih =>
    intro i pos size data htime
    rw [readLoop_succ_some]
    have hbuf : readData dev i pos size = [] := by
      unfold readData
      rw [hdev i]
      simp
    by_cases ht : time (i + 1) - time 0 > t
    · simp [hbuf, ht]
    · have htime' : time (i + 1 + k + 1) - time 0 > t := by
        have hidx : i + 1 + k + 1 = i + (k + 1) + 1 := by omega
        rw [hidx]
        exact htime
      have hrec := ih (i + 1) pos size data htime'
      simp [hbuf, ht, hrec]

/-- Claim C3: with a timeout configured and a device whose polls all return
zero bytes, `read(size)` does not loop forever: as soon as the elapsed time
measured inside the loop exceeds the timeout, it terminates and returns the
empty byte string. -/
theorem C3_timeout_no_data_returns_empty (s : FtdiSerial) (dev : RxDevice)
    (time : Nat → Nat) (t k size : Nat)
    (hto : s.timeout = some t)
    (hdev : ∀ j, dev.cumAvail j = 0)
    (htime : time (k + 1) - time 0 > t) :
    read s dev time (k + 1) size = some [] := by
  unfold read
  rw [hto]
  exact readLoop_timeout_all_empty dev time t hdev k 0 0 size []
    (by simpa using htime)

/-- A sample receive device on which no byte ever arrives. -/
def sampleRxEmpty : RxDevice := { byteAt := fun k => k, cumAvail := fun _ => 0 }

/-- Claim C3 witness: with a timeout of 25 ticks, polls 10 ticks apart and
no data ever arriving, `read(4)` returns the empty string within 3
iterations. -/
theorem C3_witness :
    read { samplePort with timeout := some 25 } sampleRxEmpty (fun i => i * 10) 3 4
      = some [] :=
  C3_timeout_no_data_returns_empty { samplePort with timeout := some 25 }
    sampleRxEmpty (fun i => i * 10) 25 2 4 rfl (fun _ => rfl) (by decide)

end PyFtdi
